import Mathlib

/-!
Shallow embedding of the record-normalization and rate-computation pipeline
of the personas-desaparecidas repository (src/edad_sexo.py, src/estatal.py,
src/municipal.py), together with theorems settling the frozen claims about it.

Conventions:
* CSV cells are modelled as `Option String`; `none` is pandas NaN (an empty
  or missing cell).
* Numeric values are `ℚ`; pandas float special values (NaN, ±inf) that the
  pipeline can produce through division are modelled by the `PVal` type.
* `pd.to_datetime(..., errors="coerce")` is modelled by a total parser of
  ISO `YYYY-MM-DD` date strings that returns `none` on any invalid input,
  mirroring the coercion of unparseable values to NaT.
* `pd.read_csv` integer parsing of a code cell is modelled by a total
  digit-string parser returning `Option Nat`.
-/

/-- A calendar date, as produced by the datetime conversion. -/
structure Fecha where
  year : Nat
  month : Nat
  day : Nat
deriving DecidableEq, Repr

/-- Gregorian leap year test. -/
def bisiesto (y : Nat) : Bool :=
  y % 4 == 0 && (y % 100 != 0 || y % 400 == 0)

/-- Number of days of month `m` in year `y`. -/
def diasEnMes (y m : Nat) : Nat :=
  if m = 2 then (if bisiesto y then 29 else 28)
  else if m = 4 ∨ m = 6 ∨ m = 9 ∨ m = 11 then 30
  else 31

/-- A structurally valid calendar date. -/
def fechaValida (f : Fecha) : Prop :=
  1 ≤ f.month ∧ f.month ≤ 12 ∧ 1 ≤ f.day ∧ f.day ≤ diasEnMes f.year f.month

instance : DecidablePred fechaValida := fun f => by
  unfold fechaValida; infer_instance

/-- Numeric value of a decimal digit character. -/
def valorDigito (c : Char) : Option Nat :=
  if c = '0' then some 0
  else if c = '1' then some 1
  else if c = '2' then some 2
  else if c = '3' then some 3
  else if c = '4' then some 4
  else if c = '5' then some 5
  else if c = '6' then some 6
  else if c = '7' then some 7
  else if c = '8' then some 8
  else if c = '9' then some 9
  else none

/-- Accumulating decimal parser over a character list. -/
def digitosAux : List Char → Nat → Option Nat
  | [], acc => some acc
  | c :: cs, acc =>
    match valorDigito c with
    | some d => digitosAux cs (acc * 10 + d)
    | none => none

/-- Models the numeric parsing `pd.read_csv` applies to an integer code cell:
a nonempty all-digit string yields its value, anything else is missing. -/
def parseNumero (s : String) : Option Nat :=
  match s.data with
  | [] => none
  | cs => digitosAux cs 0

/-- Month/day range check wrapped around date construction. -/
def armaFecha (y m d : Nat) : Option Fecha :=
  if 1 ≤ m ∧ m ≤ 12 ∧ 1 ≤ d ∧ d ≤ diasEnMes y m then some ⟨y, m, d⟩ else none

/-- Core of the date parser: accepts exactly `YYYY-MM-DD` character lists
that denote a valid calendar date. -/
def parseFechaLista : List Char → Option Fecha
  | [y1, y2, y3, y4, s1, m1, m2, s2, d1, d2] =>
    if s1 = '-' ∧ s2 = '-' then
      match valorDigito y1, valorDigito y2, valorDigito y3, valorDigito y4,
            valorDigito m1, valorDigito m2, valorDigito d1, valorDigito d2 with
      | some a, some b, some c, some e, some f6, some g, some h, some i =>
        armaFecha (a * 1000 + b * 100 + c * 10 + e) (f6 * 10 + g) (h * 10 + i)
      | _, _, _, _, _, _, _, _ => none
    else none
  | _ => none

/-- Models `pd.to_datetime(cell, errors="coerce")` on one string cell,
restricted to the ISO `YYYY-MM-DD` format: a total function (never raises)
returning `none` exactly when the input is not a valid date. -/
def parseFecha (s : String) : Option Fecha :=
  parseFechaLista s.data

/-- Datetime conversion of a possibly missing cell (NaN stays NaT). -/
def parsear (v : Option String) : Option Fecha :=
  v.bind parseFecha

/-- A raw row of `data.csv` (one victim-update event). All cell contents
other than the row key are modelled as possibly missing strings. -/
structure Registro where
  idVictima : Nat
  entidad : Option String
  sexo : Option String
  fechaDesaparicion : Option String
  fechaRegistro : Option String
  fechaNacimiento : Option String
  cveEnt : Option String
  cveMun : Option String
deriving DecidableEq, Repr

/-- Per-column behaviour of pandas `DataFrameGroupBy.last()`: within one
group it selects, for each column, the last non-null entry. -/
def lastSome {α : Type} (f : Registro → Option α) (g : List Registro) : Option α :=
  (g.filterMap f).getLast?

/-- The rows of one victim group, in input order. -/
def grupoDe (rows : List Registro) (i : Nat) : List Registro :=
  rows.filter (fun r => r.idVictima == i)

/-- The index produced by `groupby("ID_VICTIMA")`: the distinct victim ids,
sorted ascending (pandas groupby sorts group keys by default). -/
def idsOrdenados (rows : List Registro) : List Nat :=
  List.insertionSort (· ≤ ·) (rows.map Registro.idVictima).dedup

/-- The single record `groupby("ID_VICTIMA").last()` emits for victim `i`:
column-wise, the last non-null value among the victim's rows. -/
def colapsar (rows : List Registro) (i : Nat) : Registro :=
  let g := grupoDe rows i
  { idVictima := i
    entidad := lastSome Registro.entidad g
    sexo := lastSome Registro.sexo g
    fechaDesaparicion := lastSome Registro.fechaDesaparicion g
    fechaRegistro := lastSome Registro.fechaRegistro g
    fechaNacimiento := lastSome Registro.fechaNacimiento g
    cveEnt := lastSome Registro.cveEnt g
    cveMun := lastSome Registro.cveMun g }

/-- `df.groupby("ID_VICTIMA").last()` (src/edad_sexo.py line 59,
src/estatal.py line 122, src/municipal.py line 43): one record per distinct
victim id. -/
def dedupVictimas (rows : List Registro) : List Registro :=
  (idsOrdenados rows).map (colapsar rows)

/-- `df.replace("CONFIDENCIAL", np.nan)` on one cell. -/
def limpiaCampo (v : Option String) : Option String :=
  match v with
  | some s => if s = "CONFIDENCIAL" then none else some s
  | none => none

/-- `df.replace("CONFIDENCIAL", np.nan)` applied to every column of a record
(src/edad_sexo.py line 62 and analogues). -/
def limpiar (r : Registro) : Registro :=
  { idVictima := r.idVictima
    entidad := limpiaCampo r.entidad
    sexo := limpiaCampo r.sexo
    fechaDesaparicion := limpiaCampo r.fechaDesaparicion
    fechaRegistro := limpiaCampo r.fechaRegistro
    fechaNacimiento := limpiaCampo r.fechaNacimiento
    cveEnt := limpiaCampo r.cveEnt
    cveMun := limpiaCampo r.cveMun }

/-- A record after datetime conversion and date resolution. -/
structure Procesado where
  idVictima : Nat
  entidad : Option String
  sexo : Option String
  fecha : Option Fecha
  nacimiento : Option Fecha
  cveEnt : Option String
  cveMun : Option String
deriving DecidableEq, Repr

/-- Date resolution (src/edad_sexo.py line 71 and analogues): prefer the
parsed disappearance date, fall back to the parsed registration date
(`to_datetime(...).fillna(to_datetime(...))`). -/
def resolverFecha (p s : Option String) : Option Fecha :=
  match parsear p with
  | some d => some d
  | none => parsear s

/-- Datetime conversion and date resolution of one cleaned record
(src/edad_sexo.py lines 65-71 and analogues). -/
def procesarRegistro (r : Registro) : Procesado :=
  { idVictima := r.idVictima
    entidad := r.entidad
    sexo := r.sexo
    fecha := resolverFecha r.fechaDesaparicion r.fechaRegistro
    nacimiento := parsear r.fechaNacimiento
    cveEnt := r.cveEnt
    cveMun := r.cveMun }

/-- The normalization pipeline shared by every report: deduplicate per
victim, blank out confidential cells, convert and resolve dates. -/
def procesar (rows : List Registro) : List Procesado :=
  (dedupVictimas rows).map (fun r => procesarRegistro (limpiar r))

/-- Calendar year of a processed record's resolved date (`dt.year`; a NaT
date has no year). -/
def anioDe (r : Procesado) : Option Nat :=
  r.fecha.map Fecha.year

/-- `df[df["FECHA_DESAPARICION"].dt.year == año]` (src/edad_sexo.py line 74
and analogues): a record whose resolved date is missing never matches. -/
def filtrarAnio (l : List Procesado) (a : Nat) : List Procesado :=
  l.filter (fun r => anioDe r == some a)


/-- The fixed age bands of src/edad_sexo.py lines 21-40, verbatim. -/
def EDADES : List (Nat × Nat) :=
  [(0, 4), (5, 9), (10, 14), (15, 19), (20, 24), (25, 29), (30, 34),
   (35, 39), (40, 44), (45, 49), (50, 54), (55, 59), (60, 64), (65, 69),
   (70, 74), (75, 79), (80, 84), (85, 120)]

/-- Age at the event (src/edad_sexo.py line 77): calendar-year subtraction
of the resolved date and the birth date; missing if either is missing. -/
def edadDe (r : Procesado) : Option Int :=
  match r.fecha, r.nacimiento with
  | some d, some n => some ((d.year : Int) - (n.year : Int))
  | _, _ => none

/-- `EDAD.between(a, b)` for one band: inclusive on both ends. -/
def enBanda (x : Int) (p : Nat × Nat) : Bool :=
  (p.1 : Int) ≤ x && x ≤ (p.2 : Int)

/-- Band test on a possibly missing age: a missing age matches no band
(`NaN.between(a, b)` is false). -/
def enBandaOpt (x : Option Int) (p : Nat × Nat) : Bool :=
  match x with
  | some v => enBanda v p
  | none => false

/-- One cell of the age/sex count (src/edad_sexo.py lines 84-85): records of
the given sex whose age lies in the band, counted. -/
def cuentaBanda (l : List Procesado) (s : String) (p : Nat × Nat) : Nat :=
  (l.filter (fun r => r.sexo == some s && enBandaOpt (edadDe r) p)).length

/-- A pandas float as the pipeline's divisions can produce it: a number,
NaN, or a signed infinity. -/
inductive PVal where
  | nan
  | fin (q : ℚ)
  | pinf
  | ninf
deriving DecidableEq, Repr

/-- Float division of a known numerator by a possibly missing denominator:
a missing denominator gives NaN, a zero denominator gives a signed infinity
(or NaN for 0/0), otherwise the exact quotient. -/
def divP (n : ℚ) (d : Option ℚ) : PVal :=
  match d with
  | none => .nan
  | some q =>
    if q = 0 then (if n = 0 then .nan else if 0 < n then .pinf else .ninf)
    else .fin (n / q)

/-- Scaling a float by a constant factor (e.g. `* 100000`). -/
def mulP (k : ℚ) : PVal → PVal
  | .nan => .nan
  | .fin q => .fin (q * k)
  | .pinf => if 0 < k then .pinf else if k < 0 then .ninf else .nan
  | .ninf => if 0 < k then .ninf else if k < 0 then .pinf else .nan

/-- True when the float is NaN (what `dropna` removes). -/
def esNan : PVal → Bool
  | .nan => true
  | _ => false

/-- Descending comparison used to model `sort_values(..., ascending=False)`:
`antesB a b` holds when `a` may be placed before `b`, with +inf first, finite
values by descending magnitude, -inf after them, and NaN always last
(pandas `na_position="last"`). -/
def antesB : PVal → PVal → Bool
  | _, .nan => true
  | .nan, _ => false
  | .pinf, _ => true
  | _, .pinf => false
  | .fin a, .fin b => b ≤ a
  | .fin _, .ninf => true
  | .ninf, .ninf => true
  | .ninf, .fin _ => false

/-- Totality of the descending comparison, packaged for reuse. -/
def antesBTotal : ∀ a b : PVal, antesB a b = true ∨ antesB b a = true := by
  intro a b
  cases a <;> cases b <;> simp [antesB] <;> exact le_total _ _

/-- Transitivity of the descending comparison, packaged for reuse. -/
def antesBTrans : ∀ a b c : PVal,
    antesB a b = true → antesB b c = true → antesB a c = true := by
  intro a b c h1 h2
  cases a <;> cases b <;> cases c <;> simp_all [antesB] <;> linarith

/-- The composite municipality key `CVE = CVE_ENT + CVE_MUN`
(src/municipal.py line 61): string concatenation, missing if either part
is missing. -/
def cveCompuesta (r : Procesado) : Option String :=
  match r.cveEnt, r.cveMun with
  | some a, some b => some (a ++ b)
  | _, _ => none

/-- The index of `df["CVE"].value_counts()` (src/municipal.py line 64): the
distinct non-missing keys. `value_counts` drops NaN keys; its frequency
ordering is irrelevant downstream, where rows are joined by key and
re-sorted. -/
def clavesMun (l : List Procesado) : List String :=
  (l.filterMap cveCompuesta).dedup

/-- One row of the municipal rate table. -/
structure FilaMunicipal where
  cve : String
  total : Nat
  pop : Option ℚ
  tasa : PVal
deriving DecidableEq, Repr

/-- The year's processed records, shared entry point of the municipal
reports. -/
def regsAnio (rows : List Registro) (a : Nat) : List Procesado :=
  filtrarAnio (procesar rows) a

/-- One row of the municipal table for key `c`: its record count, its
population looked up by key (missing where the key has no entry), and
`tasa = total / pop * 100000`. -/
def filaDe (popT : List (String × ℚ)) (l : List Procesado) (c : String) :
    FilaMunicipal :=
  { cve := c
    total := (l.filter (fun r => cveCompuesta r == some c)).length
    pop := popT.lookup c
    tasa := mulP 100000
      (divP ((l.filter (fun r => cveCompuesta r == some c)).length : ℚ)
        (popT.lookup c)) }

/-- The municipal count/population/rate table (src/municipal.py lines 64-70
in `crear_mapa` and lines 310-316 in `tasa_municipios`). -/
def tablaMunicipal (popT : List (String × ℚ)) (rows : List Registro) (a : Nat) :
    List FilaMunicipal :=
  (clavesMun (regsAnio rows a)).map (filaDe popT (regsAnio rows a))

/-- `df.dropna(axis=0)` (src/municipal.py line 80, src/estatal.py line 692):
drops rows holding a NaN in any column; infinities are not NaN and survive. -/
def quitarNan (t : List FilaMunicipal) : List FilaMunicipal :=
  t.filter (fun f => f.pop.isSome && !esNan f.tasa)

/-- The final rate table feeding the choropleth map and its color scale. -/
def tablaFinalMapa (popT : List (String × ℚ)) (rows : List Registro) (a : Nat) :
    List FilaMunicipal :=
  quitarNan (tablaMunicipal popT rows a)

/-- Row order for `sort_values("tasa", ascending=False)`. -/
def ordenFila (f g : FilaMunicipal) : Prop :=
  antesB f.tasa g.tasa = true

instance : DecidableRel ordenFila := fun f g => by
  unfold ordenFila; infer_instance

instance : IsTotal FilaMunicipal ordenFila :=
  ⟨fun f g => antesBTotal f.tasa g.tasa⟩

instance : IsTrans FilaMunicipal ordenFila :=
  ⟨fun f g h => antesBTrans f.tasa g.tasa h.tasa⟩

/-- `tasa_municipios` ranking stage (src/municipal.py lines 316-329): rate
per key, cutoff `pop >= 50000` (a missing population never passes), sort by
rate descending, keep the first 30 rows. -/
def tasaMunicipios (popT : List (String × ℚ)) (rows : List Registro) (a : Nat) :
    List FilaMunicipal :=
  let t := tablaMunicipal popT rows a
  let t2 := t.filter (fun f =>
    match f.pop with
    | some p => 50000 ≤ p
    | none => false)
  (List.insertionSort ordenFila t2).take 30

/-- `Series.min()` of a nonempty column (0 is a placeholder for the empty
case, which pandas would answer with NaN). -/
def listaMin : List ℚ → ℚ
  | [] => 0
  | h :: t => t.foldl min h

/-- `Series.quantile(0.95)` with pandas' default linear interpolation: the
value at fractional position `0.95 * (n - 1)` of the sorted sample. -/
def cuantil95 (l : List ℚ) : ℚ :=
  let s := List.insertionSort (· ≤ ·) l
  let pos : ℚ := (95 : ℚ) / 100 * ((s.length : ℚ) - 1)
  let i : Nat := Int.toNat ⌊pos⌋
  let g : ℚ := pos - (i : ℚ)
  let x := s.getD i 0
  let y := s.getD (i + 1) x
  x + g * (y - x)

/-- `np.linspace(a, b, 13)` over exact rationals: thirteen values from `a`
to `b` in steps of `(b - a) / 12`. -/
def linspace13 (a b : ℚ) : List ℚ :=
  (List.range 13).map (fun k : Nat => a + (k : ℚ) * ((b - a) / 12))

/-- The color-scale bounds deriver (src/municipal.py lines 97-104,
src/estatal.py lines 694-701): minimum observed rate, 95th percentile as
the maximum, and the 13 tick marks between them. -/
def escalaMapa (tasas : List ℚ) : ℚ × ℚ × List ℚ :=
  (listaMin tasas, cuantil95 tasas, linspace13 (listaMin tasas) (cuantil95 tasas))

/-- `value_counts().resample("MS").sum()` over the resolved dates of one
year (src/estatal.py lines 494-497): monthly counts spanning only the months
from the first to the last observed date; interior empty months get count
zero, months outside that span are absent. -/
def mesesResample (fechas : List Fecha) : List (Nat × Nat) :=
  match fechas.map Fecha.month with
  | [] => []
  | m :: ms =>
    let lo := ms.foldl min m
    let hi := ms.foldl max m
    (List.range' lo (hi + 1 - lo)).map
      (fun k => (k, (fechas.filter (fun d => d.month == k)).length))

/-- Entity code of a raw row as `pd.read_csv` without a dtype parses it for
the numeric comparison `df["CVE_ENT"] == entidad_id` (src/estatal.py
line 119). -/
def enteCrudo (r : Registro) : Option Nat :=
  r.cveEnt.bind parseNumero

/-- Entity filtering of the raw rows (src/estatal.py lines 117-119,
467-469): the sentinel 0 means whole country, no filter. -/
def filtrarEntidad (e : Nat) (rows : List Registro) : List Registro :=
  if e = 0 then rows else rows.filter (fun r => enteCrudo r == some e)

/-- The dedup stage of the entity reports `desaparecidos_anuales` and
`comparacion_mensual` (src/estatal.py lines 117-122, 467-472): the entity
filter runs on the raw update rows, then one record is kept per victim. -/
def etapaEntidad (e : Nat) (rows : List Registro) : List Registro :=
  dedupVictimas (filtrarEntidad e rows)

/-- The monthly series of missing-persons counts in `comparacion_mensual`
(src/estatal.py lines 464-497), up to the point where it is plotted against
the fixed 12-label month axis `MESES`. -/
def comparacionMensualDesap (rows : List Registro) (e a : Nat) : List (Nat × Nat) :=
  let l := filtrarAnio ((etapaEntidad e rows).map (fun r => procesarRegistro (limpiar r))) a
  mesesResample (l.filterMap Procesado.fecha)

/-- The entity-name lookup table of src/estatal.py lines 26-61, verbatim. -/
def ENTIDADES : List (Nat × String) :=
  [(0, "México"), (1, "Aguascalientes"), (2, "Baja California"),
   (3, "Baja California Sur"), (4, "Campeche"), (5, "Coahuila"), (6, "Colima"),
   (7, "Chiapas"), (8, "Chihuahua"), (9, "Ciudad de México"), (10, "Durango"),
   (11, "Guanajuato"), (12, "Guerrero"), (13, "Hidalgo"), (14, "Jalisco"),
   (15, "Estado de México"), (16, "Michoacán"), (17, "Morelos"),
   (18, "Nayarit"), (19, "Nuevo León"), (20, "Oaxaca"), (21, "Puebla"),
   (22, "Querétaro"), (23, "Quintana Roo"), (24, "San Luis Potosí"),
   (25, "Sinaloa"), (26, "Sonora"), (27, "Tabasco"), (28, "Tamaulipas"),
   (29, "Tlaxcala"), (30, "Veracruz"), (31, "Yucatán"), (32, "Zacatecas"),
   (99, "Se desconoce")]

/-- Entity code of a processed record, as parsed for the pivot index. -/
def enteProc (r : Procesado) : Option Nat :=
  r.cveEnt.bind parseNumero

/-- The records that enter the pivot of `comparacion_anual` (src/estatal.py
lines 976-986): resolved date in one of the two years, a non-missing entity
code for the index, and a non-missing `ENTIDAD` cell, since
`aggfunc="count"` only counts non-null values of the `values` column. -/
def filasPivote (rows : List Registro) (a1 a2 : Nat) : List Procesado :=
  ((procesar rows).filter
      (fun r => anioDe r == some a1 || anioDe r == some a2)).filter
    (fun r => (enteProc r).isSome && r.entidad.isSome)

/-- One cell of the pivot: records of entity `e` in year `a`
(`fill_value=0` makes an empty cell a zero count). -/
def celda (rows : List Registro) (a1 a2 e a : Nat) : Nat :=
  ((filasPivote rows a1 a2).filter
    (fun r => enteProc r == some e && anioDe r == some a)).length

/-- The pivot index: distinct entity codes present, ascending (pandas sorts
the pivot index). -/
def indicePivote (rows : List Registro) (a1 a2 : Nat) : List Nat :=
  List.insertionSort (· ≤ ·) ((filasPivote rows a1 a2).filterMap enteProc).dedup

/-- The percent change of src/estatal.py line 995:
`(df[segundo_año] - df[primer_año]) / df[primer_año] * 100`, with float
division semantics and no guard against a zero divisor. -/
def cambioDe (c1 c2 : Nat) : PVal :=
  mulP 100 (divP ((c2 : ℚ) - (c1 : ℚ)) (some (c1 : ℚ)))

/-- One row of the annual comparison table. -/
structure FilaCambio where
  codigo : Option Nat
  nombre : Option String
  c1 : Nat
  c2 : Nat
  cambio : PVal
deriving DecidableEq, Repr

/-- The row of one entity: counts of both years, named through `ENTIDADES`
(`.map` of a dict yields a missing name for an unknown code), and the
percent change. -/
def filaEntidad (rows : List Registro) (a1 a2 e : Nat) : FilaCambio :=
  { codigo := some e
    nombre := ENTIDADES.lookup e
    c1 := celda rows a1 a2 e a1
    c2 := celda rows a1 a2 e a2
    cambio := cambioDe (celda rows a1 a2 e a1) (celda rows a1 a2 e a2) }

/-- The appended national row (src/estatal.py line 992): column sums over
the entity rows. -/
def filaNacional (rows : List Registro) (a1 a2 : Nat) : FilaCambio :=
  let t1 := ((indicePivote rows a1 a2).map (fun e => celda rows a1 a2 e a1)).sum
  let t2 := ((indicePivote rows a1 a2).map (fun e => celda rows a1 a2 e a2)).sum
  { codigo := none
    nombre := some "<b>Nacional</b>"
    c1 := t1
    c2 := t2
    cambio := cambioDe t1 t2 }

/-- Row order for `sort_values("cambio", ascending=False)` with NaN kept
last. -/
def ordenCambio (f g : FilaCambio) : Prop :=
  antesB f.cambio g.cambio = true

instance : DecidableRel ordenCambio := fun f g => by
  unfold ordenCambio; infer_instance

instance : IsTotal FilaCambio ordenCambio :=
  ⟨fun f g => antesBTotal f.cambio g.cambio⟩

instance : IsTrans FilaCambio ordenCambio :=
  ⟨fun f g h => antesBTrans f.cambio g.cambio h.cambio⟩

/-- The `comparacion_anual` table (src/estatal.py lines 958-1004): pivot by
entity over the two years, national sum appended, percent change computed
row-wise, sorted by the change descending. -/
def comparacionAnual (rows : List Registro) (a1 a2 : Nat) : List FilaCambio :=
  List.insertionSort ordenCambio
    (((indicePivote rows a1 a2).map (filaEntidad rows a1 a2)) ++
      [filaNacional rows a1 a2])

/-! Concrete inputs used by the per-claim witnesses and counterexamples. -/

/-- Earlier update row of victim 1: every cell present except dates. -/
def regC1a : Registro :=
  ⟨1, some "Sinaloa", some "MUJER", none, some "2020-01-05", none,
    some "25", some "006"⟩

/-- Later update row of victim 1 with every cell present. -/
def regC1b : Registro :=
  ⟨1, some "Sinaloa", some "MUJER", some "2024-02-10", some "2024-02-12",
    some "2000-03-04", some "25", some "006"⟩

/-- Earlier update row of victim 1 carrying a SEXO value. -/
def regC1x : Registro :=
  ⟨1, none, some "MUJER", some "2024-02-10", none, none, none, none⟩

/-- Later (and hence final) update row of victim 1, with SEXO missing. -/
def regC1y : Registro :=
  ⟨1, none, none, none, some "2024-03-01", none, none, none⟩

/-- Population table assigning population zero to municipality 25006. -/
def popC2z : List (String × ℚ) := [("25006", 0)]

/-- A victim row located in municipality 25006 during 2024. -/
def regC2z : Registro :=
  ⟨1, some "Sinaloa", some "MUJER", some "2024-02-10", none, none,
    some "25", some "006"⟩

/-- Population table assigning population 60000 to municipality 25006. -/
def popC2w : List (String × ℚ) := [("25006", 60000)]

/-- The municipal-table row produced for key 25006 from `regC2z`. -/
def filaC2 : FilaMunicipal := filaDe popC2w (regsAnio [regC2z] 2024) "25006"

/-- A processed record with no resolvable date. -/
def procC4 : Procesado := ⟨9, none, none, none, none, none, none⟩

/-- Population table for the ranking witness. -/
def popC5 : List (String × ℚ) := [("25006", 60000)]

/-- A victim row located in municipality 25006 during 2024. -/
def regC5 : Registro :=
  ⟨2, some "Sinaloa", some "HOMBRE", some "2024-06-01", none, none,
    some "25", some "006"⟩

/-- The ranking row produced for key 25006 from `regC5`. -/
def filaC5 : FilaMunicipal := filaDe popC5 (regsAnio [regC5] 2024) "25006"

/-- The spec's example rate sample: the rates 1 through 100. -/
def tasasC6 : List ℚ := (List.range 100).map (fun k : Nat => (k : ℚ) + 1)

/-- A single victim row whose resolved date falls in March 2024. -/
def regC7 : Registro :=
  ⟨1, some "Sinaloa", some "HOMBRE", some "2024-03-15", none, none,
    some "25", some "006"⟩

/-- First example row of the spec: id 1, only a date. -/
def regC8a : Registro :=
  ⟨1, none, none, some "2024-03-01", none, none, none, none⟩

/-- Second example row of the spec: id 1, later date, MUJER, born 2000. -/
def regC8b : Registro :=
  ⟨1, none, some "MUJER", some "2024-05-01", none, some "2000-07-20",
    none, none⟩

/-- The processed record the pipeline produces from the two example rows. -/
def procC8 : Procesado :=
  ⟨1, none, some "MUJER", some ⟨2024, 5, 1⟩, some ⟨2000, 7, 20⟩, none, none⟩

/-- Victim 1's update row in entity 25. -/
def regC9a : Registro :=
  ⟨1, some "Sinaloa", some "MUJER", some "2024-02-10", none, none,
    some "25", some "006"⟩

/-- Victim 1's later update row in entity 7. -/
def regC9b : Registro :=
  ⟨1, some "Chiapas", some "MUJER", some "2024-05-01", none, none,
    some "7", some "101"⟩

/-- Victim 1's first update row in entity 25, with a SEXO value. -/
def regC9x : Registro :=
  ⟨1, some "Sinaloa", some "MUJER", some "2024-02-10", none, none,
    some "25", some "006"⟩

/-- Victim 1's last update row in entity 25, with SEXO missing. -/
def regC9y : Registro :=
  ⟨1, some "Sinaloa", none, none, some "2024-03-01", none,
    some "25", some "006"⟩

/-- Victim 1's globally last update row, in entity 7. -/
def regC9z : Registro :=
  ⟨1, some "Chiapas", some "MUJER", some "2024-05-01", none, none,
    some "7", some "101"⟩

/-- A victim of entity 5 in 2023. -/
def regC10a : Registro :=
  ⟨1, some "Coahuila", some "MUJER", some "2023-04-10", none, none,
    some "5", some "030"⟩

/-- A victim of entity 25 in 2024 (entity 25 has no 2023 record). -/
def regC10b : Registro :=
  ⟨2, some "Sinaloa", some "HOMBRE", some "2024-03-15", none, none,
    some "25", some "006"⟩

/-- If a group's last row has a value in some column, the column-wise last
non-null value of the group is exactly that value. -/
theorem lastSome_de_ultimo {α : Type} (f : Registro → Option α) (g : List Registro)
    (L : Registro) (hL : g.getLast? = some L) (hf : (f L).isSome) :
    lastSome f g = f L := by
  obtain ⟨ys, rfl⟩ := List.getLast?_eq_some_iff.mp hL
  obtain ⟨v, hv⟩ := Option.isSome_iff_exists.mp hf
  unfold lastSome
  rw [List.filterMap_append]
  have hone : List.filterMap f [L] = [v] := by simp [hv]
  rw [hone, List.getLast?_concat, hv]

/-- The record emitted for victim `i` carries id `i`. -/
theorem colapsar_id (rows : List Registro) (i : Nat) :
    (colapsar rows i).idVictima = i := rfl

/-- Core deduplication fact shared by the per-victim reports: a victim id
present in the input yields exactly one record in `dedupVictimas`, namely
the column-wise collapse of its rows. -/
theorem dedup_unico (rows : List Registro) (i : Nat)
    (h : ∃ r ∈ rows, r.idVictima = i) :
    (dedupVictimas rows).filter (fun r => r.idVictima == i) = [colapsar rows i] := by
  obtain ⟨r, hr, hid⟩ := h
  have hmem : i ∈ (rows.map Registro.idVictima).dedup := by
    rw [List.mem_dedup]
    exact List.mem_map.mpr ⟨r, hr, hid⟩
  have hnd : (idsOrdenados rows).Nodup :=
    (List.perm_insertionSort _ _).nodup_iff.mpr (List.nodup_dedup _)
  have hmem2 : i ∈ idsOrdenados rows :=
    (List.perm_insertionSort _ _).mem_iff.mpr hmem
  have hcount : (idsOrdenados rows).count i = 1 :=
    List.count_eq_one_of_mem hnd hmem2
  unfold dedupVictimas
  rw [List.filter_map]
  have hpred : ((fun r => r.idVictima == i) ∘ colapsar rows) = fun j => j == i := by
    funext j
    simp [colapsar_id]
  rw [hpred, List.filter_beq, hcount]
  simp

/-- When the last row of victim `i`'s group has every cell present, the
collapsed record is that last row itself. -/
theorem colapsar_ultimo (rows : List Registro) (i : Nat) (L : Registro)
    (hL : (grupoDe rows i).getLast? = some L)
    (h1 : L.entidad.isSome) (h2 : L.sexo.isSome) (h3 : L.fechaDesaparicion.isSome)
    (h4 : L.fechaRegistro.isSome) (h5 : L.fechaNacimiento.isSome)
    (h6 : L.cveEnt.isSome) (h7 : L.cveMun.isSome) :
    colapsar rows i = L := by
  have hmem : L ∈ grupoDe rows i := List.mem_of_getLast?_eq_some hL
  have hid : L.idVictima = i := by
    have hp := List.of_mem_filter hmem
    simpa using hp
  have e1 := lastSome_de_ultimo Registro.entidad _ _ hL h1
  have e2 := lastSome_de_ultimo Registro.sexo _ _ hL h2
  have e3 := lastSome_de_ultimo Registro.fechaDesaparicion _ _ hL h3
  have e4 := lastSome_de_ultimo Registro.fechaRegistro _ _ hL h4
  have e5 := lastSome_de_ultimo Registro.fechaNacimiento _ _ hL h5
  have e6 := lastSome_de_ultimo Registro.cveEnt _ _ hL h6
  have e7 := lastSome_de_ultimo Registro.cveMun _ _ hL h7
  cases L
  simp_all [colapsar, Registro.mk.injEq]

/-- Only valid calendar dates are ever produced by the date parser. -/
theorem parseFechaLista_valida (cs : List Char) (d : Fecha)
    (h : parseFechaLista cs = some d) : fechaValida d := by
  unfold parseFechaLista at h
  split at h
  · split at h
    · split at h
      · unfold armaFecha at h
        split at h
        · rename_i hv
          cases h
          exact hv
        · simp at h
      · simp at h
    · simp at h
  · simp at h

/-- A key of the municipal table counts at least one record. -/
theorem clave_tiene_registro (l : List Procesado) (c : String)
    (hc : c ∈ clavesMun l) :
    1 ≤ (l.filter (fun r => cveCompuesta r == some c)).length := by
  unfold clavesMun at hc
  rw [List.mem_dedup] at hc
  obtain ⟨r, hr, hrc⟩ := List.mem_filterMap.mp hc
  have hmem : r ∈ l.filter (fun r => cveCompuesta r == some c) :=
    List.mem_filter.mpr ⟨hr, by simp [hrc]⟩
  exact List.length_pos.mpr (List.ne_nil_of_mem hmem)

/-- A left fold by `min` is bounded by its accumulator. -/
theorem foldl_min_le (t : List ℚ) (a : ℚ) : t.foldl min a ≤ a := by
  induction t generalizing a with
  | nil => simp
  | cons y ys ih =>
    rw [List.foldl_cons]
    exact le_trans (ih (min a y)) (min_le_left a y)

/-- A left fold by `min` is bounded by every list element. -/
theorem foldl_min_le_mem (t : List ℚ) (a x : ℚ) (hx : x ∈ t) :
    t.foldl min a ≤ x := by
  induction t generalizing a with
  | nil => simp at hx
  | cons y ys ih =>
    rw [List.foldl_cons]
    rcases List.mem_cons.mp hx with h1 | h1
    · subst h1
      exact le_trans (foldl_min_le ys _) (min_le_right a x)
    · exact ih _ h1

/-- The column minimum is attained by a list element. -/
theorem listaMin_mem (l : List ℚ) (h : l ≠ []) : listaMin l ∈ l := by
  match l with
  | x :: t =>
    show t.foldl min x ∈ x :: t
    clear h
    induction t generalizing x with
    | nil => simp
    | cons y ys ih =>
      rw [List.foldl_cons]
      rcases List.mem_cons.mp (ih (min x y)) with h1 | h1
      · rcases min_choice x y with hc | hc
        · rw [h1, hc]
          exact List.mem_cons_self _ _
        · rw [h1, hc]
          exact List.mem_cons.mpr (Or.inr (List.mem_cons_self _ _))
      · exact List.mem_cons.mpr (Or.inr (List.mem_cons.mpr (Or.inr h1)))

/-- The column minimum is a lower bound of the column. -/
theorem listaMin_le (l : List ℚ) (x : ℚ) (hx : x ∈ l) : listaMin l ≤ x := by
  match l with
  | h :: t =>
    show t.foldl min h ≤ x
    rcases List.mem_cons.mp hx with h1 | h1
    · subst h1
      exact foldl_min_le t x
    · exact foldl_min_le_mem t h x h1

/-- Closed form of the tick marks. -/
theorem linspace13_getD (a b : ℚ) (k : Nat) (hk : k < 13) :
    (linspace13 a b).getD k 0 = a + (k : ℚ) * ((b - a) / 12) := by
  unfold linspace13
  rw [List.getD_eq_getElem?_getD, List.getElem?_map, List.getElem?_range hk]
  rfl

/-- Claim C1, corrected. For a victim id on more than one raw row,
deduplication yields exactly one output record; that record is the
column-wise combination taking, for each field, the last non-missing value
among the victim's rows (pandas `groupby(...).last()` skips nulls per
column), and it equals the last input row whenever that row has no missing
fields — but not in general. -/
theorem c1_dedup_un_registro (rows : List Registro) (i : Nat)
    (hdup : 2 ≤ (grupoDe rows i).length) :
    (dedupVictimas rows).filter (fun r => r.idVictima == i) = [colapsar rows i] ∧
    ∀ L, (grupoDe rows i).getLast? = some L →
      L.entidad.isSome → L.sexo.isSome → L.fechaDesaparicion.isSome →
      L.fechaRegistro.isSome → L.fechaNacimiento.isSome →
      L.cveEnt.isSome → L.cveMun.isSome →
      colapsar rows i = L := by
  have hne : grupoDe rows i ≠ [] := by
    intro he
    rw [he] at hdup
    simp at hdup
  obtain ⟨r, hr⟩ := List.exists_mem_of_ne_nil _ hne
  have hrid : r.idVictima = i := by simpa using List.of_mem_filter hr
  have hrrows : r ∈ rows := List.mem_of_mem_filter hr
  exact ⟨dedup_unico rows i ⟨r, hrrows, hrid⟩,
    fun L hL a b c d e f g => colapsar_ultimo rows i L hL a b c d e f g⟩

/-- Witness for claim C1 at a concrete input: victim 1 has two rows and the
last one has every cell present, so the deduplicated record is that row. -/
theorem c1_witness : colapsar [regC1a, regC1b] 1 = regC1b :=
  (c1_dedup_un_registro [regC1a, regC1b] 1 (by decide)).2 regC1b (by decide)
    (by decide) (by decide) (by decide) (by decide) (by decide) (by decide)
    (by decide)

/-- Counterexample to claim C1 as stated: victim 1 appears on two rows, the
last of which has a missing SEXO cell, and the deduplicated output is not
that last row — `groupby(...).last()` keeps the SEXO value of the earlier
row. -/
theorem c1_counterexample :
    2 ≤ (grupoDe [regC1x, regC1y] 1).length ∧
      dedupVictimas [regC1x, regC1y] ≠ [regC1y] := by
  constructor
  · decide
  · decide

/-- Claim C9, corrected. The entity filter of `desaparecidos_anuales` and
`comparacion_mensual` runs on the raw update rows before per-victim
deduplication, so a victim with rows in several entities yields exactly one
counted record in each such entity's report: the column-wise collapse of the
victim's rows within that entity (equal to the victim's last row within that
entity whenever that row has no missing fields), not only a record in the
entity of the victim's globally last row. -/
theorem c9_registro_por_entidad (rows : List Registro) (e v : Nat) (he : e ≠ 0)
    (hv : ∃ r ∈ rows, r.idVictima = v ∧ enteCrudo r = some e) :
    (etapaEntidad e rows).filter (fun r => r.idVictima == v) =
      [colapsar (filtrarEntidad e rows) v] := by
  obtain ⟨r, hr, hid, hent⟩ := hv
  have hr2 : r ∈ filtrarEntidad e rows := by
    unfold filtrarEntidad
    rw [if_neg he]
    exact List.mem_filter.mpr ⟨hr, by simp [hent]⟩
  unfold etapaEntidad
  exact dedup_unico _ v ⟨r, hr2, hid⟩

/-- Witness for claim C9 at a concrete input: victim 1 has rows in entities
25 and 7; the entity-7 report contains exactly one record for them. -/
theorem c9_witness :
    (etapaEntidad 7 [regC9a, regC9b]).filter (fun r => r.idVictima == 1) =
      [colapsar (filtrarEntidad 7 [regC9a, regC9b]) 1] :=
  c9_registro_por_entidad [regC9a, regC9b] 7 1 (by decide)
    ⟨regC9b, by decide, rfl, by decide⟩

/-- Counterexample to claim C9 as stated: within entity 25 victim 1's last
row has a missing SEXO cell, so the record counted for entity 25 is not the
victim's last row within that entity. -/
theorem c9_counterexample :
    etapaEntidad 25 [regC9x, regC9y, regC9z] ≠ [regC9y] := by decide

/-- Claim C3, corrected. The 18 bands partition the ages 0 through 120:
every such age lies in exactly one band. But the final band is the bounded
interval 85 to 120, not an unbounded 85+: ages above 120 lie in no band at
all. -/
theorem c3_bandas_particion :
    (∀ e : Nat, e ≤ 120 → (EDADES.filter (enBanda (e : Int))).length = 1) ∧
    (∀ e : Nat, 121 ≤ e → EDADES.filter (enBanda (e : Int)) = []) := by
  constructor
  · decide
  · intro e he
    rw [List.filter_eq_nil_iff]
    intro p hp
    fin_cases hp <;> simp [enBanda] <;> omega

/-- Witness for claim C3 at a concrete age: 37 lies in exactly one band. -/
theorem c3_witness : (EDADES.filter (enBanda (37 : Int))).length = 1 :=
  c3_bandas_particion.1 37 (by decide)

/-- Counterexample to claim C3 as stated: age 121 is at least 85 yet lies in
no band, because the final band is capped at 120. -/
theorem c3_counterexample :
    (EDADES.filter (enBanda (121 : Int))).length = 0 := by decide

/-- Claim C4, confirmed. The resolved date is the parsed primary
disappearance date when that cell parses to a valid calendar date (the
parser is a total function — never a raised fault — and only ever yields
valid dates), otherwise the parsed secondary registration date; a record
with no resolved date is excluded from every year-filtered aggregation. -/
theorem c4_resolucion_fecha (p s : Option String) (l : List Procesado)
    (a : Nat) (r : Procesado) :
    (∀ d, parsear p = some d → resolverFecha p s = some d) ∧
    (parsear p = none → resolverFecha p s = parsear s) ∧
    (∀ t d, parseFecha t = some d → fechaValida d) ∧
    (r.fecha = none → r ∉ filtrarAnio l a) := by
  refine ⟨?_, ?_, ?_, ?_⟩
  · intro d hd
    unfold resolverFecha
    rw [hd]
  · intro hn
    unfold resolverFecha
    rw [hn]
  · intro t d hd
    exact parseFechaLista_valida t.data d hd
  · intro hf hmem
    unfold filtrarAnio at hmem
    have hp := List.of_mem_filter hmem
    simp [anioDe, hf] at hp

/-- Witness for claim C4 at concrete inputs: an invalid primary date falls
back to the secondary date, and a record with no date at all is excluded
from the 2024 partition. -/
theorem c4_witness :
    resolverFecha (some "2024-99-99") (some "2023-01-31") = some ⟨2023, 1, 31⟩ ∧
    procC4 ∉ filtrarAnio [procC4] 2024 := by
  constructor
  · have h :=
      (c4_resolucion_fecha (some "2024-99-99") (some "2023-01-31") [] 0
        procC4).2.1 (by decide)
    rw [h]
    decide
  · exact (c4_resolucion_fecha none none [procC4] 2024 procC4).2.2.2 rfl

/-- Claim C8, confirmed. For a record with a resolved date and a parsed
birth date, the computed age is the difference of the two calendar years
(plain year subtraction), the record matches exactly the bands whose
inclusive range contains that age, and any matching record contributes to
the band's count. -/
theorem c8_edad_por_anios (r : Procesado) (d n : Fecha)
    (hd : r.fecha = some d) (hn : r.nacimiento = some n) :
    edadDe r = some ((d.year : Int) - (n.year : Int)) ∧
    (∀ p : Nat × Nat, enBandaOpt (edadDe r) p = true ↔
      ((p.1 : Int) ≤ (d.year : Int) - (n.year : Int) ∧
        (d.year : Int) - (n.year : Int) ≤ (p.2 : Int))) ∧
    (∀ (l : List Procesado) (s : String) (p : Nat × Nat),
      r ∈ l → r.sexo = some s → enBandaOpt (edadDe r) p = true →
      1 ≤ cuentaBanda l s p) := by
  have he : edadDe r = some ((d.year : Int) - (n.year : Int)) := by
    unfold edadDe
    rw [hd, hn]
  refine ⟨he, ?_, ?_⟩
  · intro p
    rw [he]
    simp [enBandaOpt, enBanda]
  · intro l s p hl hs hb
    unfold cuentaBanda
    have hmem : r ∈ l.filter
        (fun r => r.sexo == some s && enBandaOpt (edadDe r) p) :=
      List.mem_filter.mpr ⟨hl, by simp [hs, hb]⟩
    exact List.length_pos.mpr (List.ne_nil_of_mem hmem)

/-- Witness for claim C8 on the spec's example: the pipeline keeps the
second row of victim 1, the age for event year 2024 and birth year 2000 is
24, and the record falls in the 20-24 band. -/
theorem c8_witness :
    procesar [regC8a, regC8b] = [procC8] ∧
    edadDe procC8 = some 24 ∧
    enBandaOpt (edadDe procC8) (20, 24) = true := by
  refine ⟨by decide, ?_, ?_⟩
  · have h := (c8_edad_por_anios procC8 ⟨2024, 5, 1⟩ ⟨2000, 7, 20⟩ rfl rfl).1
    rw [h]
    decide
  · exact ((c8_edad_por_anios procC8 ⟨2024, 5, 1⟩ ⟨2000, 7, 20⟩ rfl rfl).2.1
      (20, 24)).mpr (by decide)

/-- Claim C2, corrected. Every row of the final municipal rate table counts
at least one record and has a present population; where the population is
nonzero the rate is exactly `total / pop * 100000`. A key with a missing
population is indeed absent (its NaN rate row is dropped by `dropna`), but a
key with population zero is retained with rate +inf, because `dropna` does
not remove infinities. -/
theorem c2_tasa_sin_nan (popT : List (String × ℚ)) (rows : List Registro)
    (a : Nat) (f : FilaMunicipal) (hf : f ∈ tablaFinalMapa popT rows a) :
    1 ≤ f.total ∧ f.pop ≠ none ∧
    (f.pop ≠ some 0 →
      f.tasa = PVal.fin ((f.total : ℚ) / f.pop.getD 0 * 100000)) ∧
    (f.pop = some 0 → f.tasa = PVal.pinf) := by
  unfold tablaFinalMapa quitarNan at hf
  have hf2 := List.mem_of_mem_filter hf
  unfold tablaMunicipal at hf2
  obtain ⟨c, hc, hfc⟩ := List.mem_map.mp hf2
  subst hfc
  have ht := clave_tiene_registro (regsAnio rows a) c hc
  cases hp : popT.lookup c with
  | none =>
    exfalso
    have hcond := List.of_mem_filter hf
    simp [filaDe, hp] at hcond
  | some pq =>
    refine ⟨ht, by simp [filaDe, hp], ?_, ?_⟩
    · intro hpz
      have hpq : pq ≠ 0 := by
        intro h0
        apply hpz
        simp [filaDe, hp, h0]
      simp [filaDe, hp, divP, mulP, hpq]
    · intro hz
      have hpq0 : pq = 0 := by
        have hpp : (filaDe popT (regsAnio rows a) c).pop = some pq := by
          simp [filaDe, hp]
        rw [hpp] at hz
        exact Option.some_inj.mp hz
      subst hpq0
      have hlen : (0 : ℚ) <
          (((regsAnio rows a).filter
            (fun r => cveCompuesta r == some c)).length : ℚ) := by
        exact_mod_cast ht
      simp [filaDe, hp, divP, mulP, ne_of_gt hlen, hlen]

attribute [local semireducible] Rat.mul Rat.inv Rat.add Rat.sub Rat.ofScientific

set_option maxRecDepth 4096 in
/-- Witness for claim C2 at a concrete input: the single 2024 record of
municipality 25006 with population 60000 yields a retained row whose rate is
the exact quotient formula. -/
theorem c2_witness :
    1 ≤ filaC2.total ∧ filaC2.pop ≠ none ∧
    filaC2.tasa = PVal.fin ((filaC2.total : ℚ) / filaC2.pop.getD 0 * 100000) := by
  have h := c2_tasa_sin_nan popC2w [regC2z] 2024 filaC2 (by decide)
  exact ⟨h.1, h.2.1, h.2.2.1 (by decide)⟩

/-- Counterexample to claim C2 as stated: municipality 25006 has population
zero in the denominators table, yet its row survives `dropna` and reaches
the final rate table with an infinite rate. -/
theorem c2_counterexample :
    (tablaFinalMapa popC2z [regC2z] 2024).map FilaMunicipal.tasa =
      [PVal.pinf] := by decide

/-- Claim C5, confirmed. Every row of the top-30 municipality ranking has a
present population of at least 50000, the output has at most 30 rows, and
the rows are sorted by rate in descending order with no inversions. -/
theorem c5_corte_y_orden (popT : List (String × ℚ)) (rows : List Registro)
    (a : Nat) :
    (∀ f ∈ tasaMunicipios popT rows a, f.pop ≠ none ∧ 50000 ≤ f.pop.getD 0) ∧
    (tasaMunicipios popT rows a).length ≤ 30 ∧
    List.Pairwise
      (fun f g => ∀ x y, f.tasa = PVal.fin x → g.tasa = PVal.fin y → y ≤ x)
      (tasaMunicipios popT rows a) := by
  unfold tasaMunicipios
  refine ⟨?_, ?_, ?_⟩
  · intro f hf
    have hf2 := List.mem_of_mem_take hf
    have hcond := List.of_mem_filter ((List.mem_insertionSort ordenFila).mp hf2)
    cases hp : f.pop with
    | none =>
      rw [hp] at hcond
      simp at hcond
    | some p =>
      rw [hp] at hcond
      simp at hcond
      exact ⟨by simp [hp], by simpa [hp] using hcond⟩
  · rw [List.length_take]
    exact min_le_left _ _
  · have hs := List.sorted_insertionSort ordenFila
      ((tablaMunicipal popT rows a).filter (fun f =>
        match f.pop with
        | some p => 50000 ≤ p
        | none => false))
    refine List.Pairwise.imp ?_ (hs.sublist (List.take_sublist 30 _))
    intro f g hr x y hx hy
    unfold ordenFila at hr
    rw [hx, hy] at hr
    simpa [antesB] using hr

set_option maxRecDepth 4096 in
/-- Witness for claim C5 at a concrete input: the produced ranking row for
municipality 25006 passes the population cutoff. -/
theorem c5_witness : filaC5.pop ≠ none ∧ 50000 ≤ filaC5.pop.getD 0 :=
  (c5_corte_y_orden popC5 [regC5] 2024).1 filaC5 (by decide)

/-- Claim C6, confirmed. The color-scale deriver returns the minimum
observed rate (a member of and lower bound of the rates) as its lower
bound, the 95th percentile of the rates as its upper bound, and exactly 13
tick marks running from that minimum to that maximum in equal steps. -/
theorem c6_escala_percentil (tasas : List ℚ) (h : tasas ≠ []) :
    (escalaMapa tasas).1 ∈ tasas ∧
    (∀ x ∈ tasas, (escalaMapa tasas).1 ≤ x) ∧
    (escalaMapa tasas).2.1 = cuantil95 tasas ∧
    (escalaMapa tasas).2.2.length = 13 ∧
    (escalaMapa tasas).2.2.getD 0 0 = (escalaMapa tasas).1 ∧
    (escalaMapa tasas).2.2.getD 12 0 = (escalaMapa tasas).2.1 ∧
    (∀ k, k < 12 →
      (escalaMapa tasas).2.2.getD (k + 1) 0 - (escalaMapa tasas).2.2.getD k 0 =
        ((escalaMapa tasas).2.1 - (escalaMapa tasas).1) / 12) := by
  refine ⟨listaMin_mem tasas h, fun x hx => listaMin_le tasas x hx, rfl,
    ?_, ?_, ?_, ?_⟩
  · simp [escalaMapa, linspace13]
  · rw [show (escalaMapa tasas).2.2 =
        linspace13 (listaMin tasas) (cuantil95 tasas) from rfl,
      linspace13_getD _ _ 0 (by omega)]
    simp [escalaMapa]
  · rw [show (escalaMapa tasas).2.2 =
        linspace13 (listaMin tasas) (cuantil95 tasas) from rfl,
      linspace13_getD _ _ 12 (by omega)]
    show listaMin tasas + (12 : ℚ) * ((cuantil95 tasas - listaMin tasas) / 12) =
      cuantil95 tasas
    ring
  · intro k hk
    rw [show (escalaMapa tasas).2.2 =
        linspace13 (listaMin tasas) (cuantil95 tasas) from rfl,
      linspace13_getD _ _ (k + 1) (by omega), linspace13_getD _ _ k (by omega),
      show (escalaMapa tasas).2.1 = cuantil95 tasas from rfl,
      show (escalaMapa tasas).1 = listaMin tasas from rfl]
    push_cast
    ring

set_option maxRecDepth 8192 in
/-- Witness for claim C6 on the spec's example rates 1..100: the derived
minimum is 1 and a member of the sample, the derived maximum is the linear
95th percentile 95.05, there are 13 ticks, and consecutive ticks differ by
one twelfth of the span. -/
theorem c6_witness :
    (escalaMapa tasasC6).1 = 1 ∧
    (escalaMapa tasasC6).1 ∈ tasasC6 ∧
    (escalaMapa tasasC6).2.1 = 1901 / 20 ∧
    (escalaMapa tasasC6).2.2.length = 13 ∧
    (escalaMapa tasasC6).2.2.getD 1 0 - (escalaMapa tasasC6).2.2.getD 0 0 =
      ((escalaMapa tasasC6).2.1 - (escalaMapa tasasC6).1) / 12 := by
  have h := c6_escala_percentil tasasC6 (by decide)
  exact ⟨by decide, h.1, by decide, h.2.2.2.1, h.2.2.2.2.2.2 0 (by omega)⟩

/-- Claim C7, code bug. `comparacion_mensual` pairs its monthly counts with
the fixed 12-label axis MESES, but the series produced by
`value_counts().resample("MS").sum()` only spans the months from the first
to the last observed record: at this input (a single March 2024 record) the
aggregated output has a single entry instead of twelve zero-filled months,
and the chart would label the March bar "Enero". -/
theorem c7_meses_incompletos :
    comparacionMensualDesap [regC7] 0 2024 = [(3, 1)] ∧
    (comparacionMensualDesap [regC7] 0 2024).length ≠ 12 := by
  exact ⟨by decide, by decide⟩

/-- Claim C10, confirmed. In `comparacion_anual` the percent change is
`(second - first) / first * 100` with no zero-divisor guard: an entity with
records only in the second year gets change +inf (not a finite number), and
its row is nevertheless retained in the sorted output. The hypothesis about
the first year's column merely ensures the pivot has both year columns. -/
theorem c10_cambio_infinito (rows : List Registro) (a1 a2 e : Nat)
    (_hcol : 1 ≤ ((filasPivote rows a1 a2).filter
      (fun r => anioDe r == some a1)).length)
    (h1 : celda rows a1 a2 e a1 = 0)
    (h2 : 1 ≤ celda rows a1 a2 e a2) :
    filaEntidad rows a1 a2 e ∈ comparacionAnual rows a1 a2 ∧
    (filaEntidad rows a1 a2 e).c1 = 0 ∧
    (filaEntidad rows a1 a2 e).cambio = PVal.pinf ∧
    (∀ q : ℚ, (filaEntidad rows a1 a2 e).cambio ≠ PVal.fin q) := by
  have hmem : e ∈ indicePivote rows a1 a2 := by
    unfold celda at h2
    have hne : ((filasPivote rows a1 a2).filter
        (fun r => enteProc r == some e && anioDe r == some a2)) ≠ [] := by
      intro hnil
      rw [hnil] at h2
      simp at h2
    obtain ⟨r, hr⟩ := List.exists_mem_of_ne_nil _ hne
    have hr2 := List.mem_of_mem_filter hr
    have hre := List.of_mem_filter hr
    rw [Bool.and_eq_true] at hre
    unfold indicePivote
    apply (List.perm_insertionSort _ _).mem_iff.mpr
    rw [List.mem_dedup]
    refine List.mem_filterMap.mpr ⟨r, hr2, ?_⟩
    simpa using hre.1
  have hc2 : (0 : ℚ) < (celda rows a1 a2 e a2 : ℚ) := by exact_mod_cast h2
  have hcam : (filaEntidad rows a1 a2 e).cambio = PVal.pinf := by
    show cambioDe (celda rows a1 a2 e a1) (celda rows a1 a2 e a2) = PVal.pinf
    rw [h1]
    unfold cambioDe
    simp [divP, mulP, ne_of_gt hc2, hc2]
  refine ⟨?_, h1, hcam, ?_⟩
  · unfold comparacionAnual
    apply (List.perm_insertionSort _ _).mem_iff.mpr
    exact List.mem_append_left _ (List.mem_map_of_mem _ hmem)
  · intro q hq
    rw [hcam] at hq
    exact PVal.noConfusion hq

/-- Witness for claim C10 at a concrete input: entity 25 has no 2023 record
and one 2024 record, so its comparison row is retained with change +inf. -/
theorem c10_witness :
    filaEntidad [regC10a, regC10b] 2023 2024 25 ∈
      comparacionAnual [regC10a, regC10b] 2023 2024 ∧
    (filaEntidad [regC10a, regC10b] 2023 2024 25).c1 = 0 ∧
    (filaEntidad [regC10a, regC10b] 2023 2024 25).cambio = PVal.pinf := by
  have h := c10_cambio_infinito [regC10a, regC10b] 2023 2024 25 (by decide)
    (by decide) (by decide)
  exact ⟨h.1, h.2.1, h.2.2.1⟩
